import Mathlib

/-!
Verification development for the BountiesAPI bounty lifecycle engine.

The repository sources in scope are `std_bounties/master_client.py`
(the event handlers) and `std_bounties/tests.py`.  The pricing helpers
(`std_bounties/client_helpers.py`), the bounty client
(`std_bounties/bounty_client.py`), the ORM models, and the notification
and slack collaborators are not part of the provided sources; where a
definition embeds one of those, its doc comment starts with
"Modelled from the spec:" and the surrounding theorems treat it as the
description given by the specification of the missing code.
-/

set_option autoImplicit false
set_option linter.unusedVariables false

/-- Decidable equality of handler results. -/
instance {ε α : Type} [DecidableEq ε] [DecidableEq α] :
    DecidableEq (Except ε α) := fun x y =>
  match x, y with
  | .ok a, .ok b =>
      if h : a = b then isTrue (by rw [h]) else isFalse (by simp [h])
  | .ok _, .error _ => isFalse (by simp)
  | .error _, .ok _ => isFalse (by simp)
  | .error e, .error f =>
      if h : e = f then isTrue (by rw [h]) else isFalse (by simp [h])

namespace BountiesAPI

/-! ## Pricing engine (`client_helpers`) -/

/-- One digit of a decimal numeral, `none` when the character is not a
digit. -/
def digitVal (c : Char) : Option ℕ :=
  if c.isDigit then some (c.toNat - 48) else none

/-- Modelled from the spec: `rawValue` is an "arbitrary-precision unsigned
integer as decimal string"; parsing reads the digits in base 10 and fails
on anything that is not a non-empty all-digit string (as Python
`Decimal(value)` would reject garbage). -/
def parseDecimalNat (s : String) : Option ℕ :=
  if s.data.isEmpty then none
  else
    s.data.foldl
      (fun acc c =>
        match acc, digitVal c with
        | some n, some d => some (n * 10 + d)
        | _, _ => none)
      (some 0)

/-- Modelled from the spec: the exact token quantity
`rawValue * 10^-decimals`, computed by exact base-10 scaling with no
binary floating point — embedded as the exact rational `n / 10 ^ d`. -/
def tokenQuantity (n : ℕ) (d : ℕ) : ℚ :=
  (n : ℚ) / 10 ^ d

/-- Modelled from the spec: round-half-up to an integer (Python decimal
`ROUND_HALF_UP`: ties round away from zero). -/
def roundHalfUp (x : ℚ) : ℤ :=
  if 0 ≤ x then ⌊x + 1 / 2⌋ else -⌊-x + 1 / 2⌋

/-- Modelled from the spec: quantization to exactly 8 fractional digits
with round-half-up (Python `Decimal.quantize` at `1.00000000`). -/
def quantize8 (x : ℚ) : ℚ :=
  (roundHalfUp (x * 10 ^ 8) : ℚ) / 10 ^ 8

/-- Modelled from the spec: numeric core of `calculate_usd_price` —
the exact quantity times the USD rate, rounded to 8 fractional digits
half-up. -/
def usdPriceQ (n : ℕ) (d : ℕ) (usd_rate : ℚ) : ℚ :=
  quantize8 (tokenQuantity n d * usd_rate)

/-- Modelled from the spec: `calculate_token_quantity(value, decimals)`
from `client_helpers` (absent from the provided sources; only its tests
are), parsing the decimal string and scaling by `10^-decimals`
exactly. -/
def calculate_token_quantity (value : String) (decimals : ℕ) : Option ℚ :=
  (parseDecimalNat value).map (fun n => tokenQuantity n decimals)

/-- Modelled from the spec: `calculate_usd_price(value, decimals,
usd_rate)` from `client_helpers` — `quantity * rate` rounded to 8
fractional digits, round-half-up, in exact decimal arithmetic. -/
def calculate_usd_price (value : String) (decimals : ℕ) (usd_rate : ℚ) :
    Option ℚ :=
  (parseDecimalNat value).map (fun n => usdPriceQ n decimals usd_rate)

/-- Token registry record, fields as constructed in
`tests.py` (`normalized_name`, `name`, `symbol`, `price_usd`). -/
structure Token where
  normalized_name : String
  name : String
  symbol : String
  price_usd : ℚ
  deriving DecidableEq, Repr

/-- A token registry: the set of registered tokens, keyed by symbol. -/
def Registry := List Token

/-- Modelled from the spec: `get_token_pricing(token_symbol,
token_decimals, value)` from `client_helpers` — looks the symbol up in
the Token Registry; when absent it degrades to `(0, absent)` instead of
failing; when present it returns
`(usdPrice(value, decimals, token.price_usd), token)`. -/
def get_token_pricing (reg : Registry) (token_symbol : String)
    (token_decimals : ℕ) (value : ℕ) : ℚ × Option Token :=
  match List.find? (fun t => t.symbol = token_symbol) reg with
  | none => (0, none)
  | some token => (usdPriceQ value token_decimals token.price_usd, some token)

/-- The ETH token registered by the test fixture (registered `price_usd` rate 600). -/
def ethToken : Token :=
  { normalized_name := "ethereum", name := "Ethereum", symbol := "ETH",
    price_usd := 600 }


/-! ## Event handlers (`master_client.py`) -/

/-- A Python value as it occurs in the loosely-typed `inputs` mapping of
an event payload: `None`, a string, or an integer. -/
inductive PyVal where
  | pyNone
  | pyStr (s : String)
  | pyInt (n : ℤ)
  deriving DecidableEq, Repr

/-- Python truthiness of a `PyVal`, as tested by the handler `if` statements (None, the empty string and 0 are falsy). -/
def PyVal.truthy : PyVal → Bool
  | .pyNone => false
  | .pyStr s => s != ""
  | .pyInt n => n != 0

/-- An event payload `inputs` dictionary. -/
abbrev Dict := List (String × PyVal)

/-- Python `inputs.get(key, None)`. -/
def Dict.get (d : Dict) (k : String) : PyVal :=
  match List.find? (fun p => p.1 = k) d with
  | some p => p.2
  | none => .pyNone

/-- Numeric payload field, read as a non-negative integer (raw on-chain
amounts and timestamps); absent or non-numeric fields read as 0. -/
def Dict.getNat (d : Dict) (k : String) : ℕ :=
  match d.get k with
  | .pyInt n => n.toNat
  | .pyStr str => (parseDecimalNat str).getD 0
  | _ => 0

/-- String payload field; absent or non-string fields read as empty. -/
def Dict.getStr (d : Dict) (k : String) : String :=
  match d.get k with
  | .pyStr str => str
  | _ => ""

/-- The `**kwargs` of a handler call: the fields the handlers read
(`inputs` and `fulfillment_id`); remaining payload entries are forwarded
opaquely to collaborators and never influence handler control flow. -/
structure Kwargs where
  inputs : Dict := []
  fulfillment_id : Option ℕ := none
  deriving DecidableEq, Repr

/-- Bounty lifecycle stage (spec stage enum). -/
inductive Stage where
  | draft
  | active
  | dead
  | completed
  | expired
  deriving DecidableEq, Repr

/-- Modelled from the spec: the persisted Bounty aggregate fields that
lifecycle events mutate (`std_bounties.models.Bounty` is not among the
provided sources).  Fulfillments are kept inline as
`(fulfillment_id, accepted)` pairs. -/
structure BountyRec where
  bountyId : ℕ
  stage : Stage
  issuer : String
  deadline : ℕ
  balance : ℕ
  fulfillmentAmount : ℕ
  fulfillments : List (ℕ × Bool)
  deriving DecidableEq, Repr

/-- The persistence store: the Bounty records, keyed by `bounty_id`. -/
abbrev Store := List BountyRec

/-- Lookup used by `Bounty.objects.filter(bounty_id=...)` and
`Bounty.objects.get(bounty_id=...)`: the first record with that id. -/
def Store.lookup (s : Store) (bounty_id : ℕ) : Option BountyRec :=
  List.find? (fun b => b.bountyId = bounty_id) s

/-- Saving a mutated aggregate: replace the record with the same id. -/
def Store.save (s : Store) (b : BountyRec) : Store :=
  List.map (fun c => if c.bountyId = b.bountyId then b else c) s

namespace BountyClient

/-- Modelled from the spec: `bounty_client.issue_bounty` creates the
aggregate for a fresh `bounty_id`, in stage Draft, or Active when the
payload carries the issue-and-activate flag (inferred in the source
from the `_value` input); returns the created record. -/
def issue_bounty (s : Store) (bounty_id : ℕ) (kw : Kwargs) :
    Store × BountyRec :=
  let inputs := kw.inputs
  let stage := if (inputs.get "_value").truthy then Stage.active
               else Stage.draft
  let b : BountyRec :=
    { bountyId := bounty_id, stage := stage,
      issuer := inputs.getStr "_issuer",
      deadline := inputs.getNat "_deadline", balance := 0,
      fulfillmentAmount := inputs.getNat "_fulfillmentAmount",
      fulfillments := [] }
  (b :: s, b)

/-- Modelled from the spec: `activate_bounty` moves the bounty to stage
Active. -/
def activate_bounty (s : Store) (b : BountyRec) (kw : Kwargs) : Store :=
  s.save { b with stage := Stage.active }

/-- Modelled from the spec: `fulfill_bounty` creates a Fulfillment
record (not yet accepted) scoped to the bounty. -/
def fulfill_bounty (s : Store) (b : BountyRec) (kw : Kwargs) : Store :=
  s.save { b with fulfillments :=
      b.fulfillments ++ [(kw.fulfillment_id.getD 0, false)] }

/-- Modelled from the spec: `update_fulfillment` refreshes the
fulfillment metadata pointer (a field outside this embedding); the
modelled aggregate fields are unchanged. -/
def update_fulfillment (s : Store) (b : BountyRec) (kw : Kwargs) : Store :=
  s.save b

/-- Modelled from the spec: `accept_fulfillment` sets `accepted` on the
referenced fulfillment (monotonic false to true). -/
def accept_fulfillment (s : Store) (b : BountyRec) (kw : Kwargs) : Store :=
  let fid := kw.fulfillment_id.getD 0
  s.save { b with fulfillments :=
      b.fulfillments.map (fun p => if p.1 = fid then (p.1, true) else p) }

/-- Modelled from the spec: `kill_bounty` moves the bounty to the
terminal stage Dead. -/
def kill_bounty (s : Store) (b : BountyRec) (kw : Kwargs) : Store :=
  s.save { b with stage := Stage.dead }

/-- Modelled from the spec: `add_contribution` increments the balance
by the contributed amount. -/
def add_contribution (s : Store) (b : BountyRec) (kw : Kwargs) : Store :=
  s.save { b with balance := b.balance + kw.inputs.getNat "amount" }

/-- Modelled from the spec: `extend_deadline` replaces the deadline
with the `newDeadline` payload field. -/
def extend_deadline (s : Store) (b : BountyRec) (kw : Kwargs) : Store :=
  s.save { b with deadline := kw.inputs.getNat "newDeadline" }

/-- Modelled from the spec: `change_bounty` mutates metadata only; the
modelled aggregate fields are unchanged. -/
def change_bounty (s : Store) (b : BountyRec) (kw : Kwargs) : Store :=
  s.save b

/-- Modelled from the spec: `transfer_issuer` replaces the issuer. -/
def transfer_issuer (s : Store) (b : BountyRec) (kw : Kwargs) : Store :=
  s.save { b with issuer := kw.inputs.getStr "newIssuer" }

/-- Modelled from the spec: `increase_payout` raises the fulfillment
amount. -/
def increase_payout (s : Store) (b : BountyRec) (kw : Kwargs) : Store :=
  s.save { b with fulfillmentAmount :=
      kw.inputs.getNat "newFulfillmentAmount" }

end BountyClient

/-- An observable side effect of a handler, in emission order: a
`bounty_client` state commit, a notification-client call, a
slack-client call, or a log line recording a failed delivery. -/
inductive Effect where
  | commit (op : String) (bounty_id : ℕ)
  | notify (kind : String) (bounty_id : ℕ)
  | slack (kind : String) (bounty_id : ℕ)
  | log (msg : String)
  deriving DecidableEq, Repr

/-- True exactly on notification attempts (notification client, slack
client, or the log line of a failed delivery); false on commits. -/
def Effect.isNotification : Effect → Bool
  | .commit _ _ => false
  | _ => true

/-- True exactly on `bounty_client` state commits. -/
def Effect.isCommit : Effect → Bool
  | .commit _ _ => true
  | _ => false

/-- The delivery environment: which notification-client and
slack-client deliveries fail, by message kind. -/
structure World where
  notifyFails : String → Bool
  slackFails : String → Bool

/-- The environment in which every delivery succeeds. -/
def goodWorld : World := ⟨fun _ => false, fun _ => false⟩

/-- Modelled from the spec: a notification-client call — delivery
failures are caught, logged and retried inside the collaborator (which
is not among the provided sources), never raised to the handler. -/
def notifyCall (w : World) (kind : String) (bounty_id : ℕ) : Effect :=
  if w.notifyFails kind then .log ("notification failed: " ++ kind)
  else .notify kind bounty_id

/-- Modelled from the spec: a slack-client call, failures handled as in
`notifyCall`. -/
def slackCall (w : World) (kind : String) (bounty_id : ℕ) : Effect :=
  if w.slackFails kind then .log ("slack failed: " ++ kind)
  else .slack kind bounty_id

/-- A core failure: the `NotFoundError` of the specification
(`Bounty.DoesNotExist` raised by `Bounty.objects.get`). -/
inductive CoreError where
  | notFound
  deriving DecidableEq, Repr

/-- A handler outcome: the store after the aggregate commit together
with the emitted side effects in order, or a core failure (raised
before any mutation). -/
abbrev HandlerResult := Except CoreError (Store × List Effect)

/-- The store as the caller sees it after a handler result: on success
the committed store, on failure the unchanged input store (the Python
exception propagates before any write happens). -/
def storeAfter (s : Store) : HandlerResult → Store
  | .ok (s2, _) => s2
  | .error _ => s

/-- Whether a handler result is a success. -/
def resultOk : HandlerResult → Bool
  | .ok _ => true
  | .error _ => false

/-- Handler `bounty_issued` of `master_client.py`: returns immediately
when a bounty with this id already exists; otherwise creates it and, if
the issue-and-activate flag (the `_value` input) is falsy, sends the
issuance notification and slack message. -/
def bounty_issued (w : World) (s : Store) (bounty_id : ℕ) (kw : Kwargs) :
    HandlerResult :=
  let inputs := kw.inputs
  let is_issue_and_activate := (inputs.get "_value").truthy
  match s.lookup bounty_id with
  | some _ => .ok (s, [])
  | none =>
    let sb := BountyClient.issue_bounty s bounty_id kw
    if is_issue_and_activate then
      .ok (sb.1, [.commit "issue_bounty" bounty_id])
    else
      .ok (sb.1, [.commit "issue_bounty" bounty_id,
                  notifyCall w "bounty_issued" bounty_id,
                  slackCall w "bounty_issued" bounty_id])

/-- Handler `bounty_activated` of `master_client.py`: fetches the
bounty (NotFound when absent), commits the activation, then sends the
combined issued-and-activated messages when the `_issuer` input is
truthy, else the plain activation messages. -/
def bounty_activated (w : World) (s : Store) (bounty_id : ℕ)
    (kw : Kwargs) : HandlerResult :=
  match s.lookup bounty_id with
  | none => .error .notFound
  | some bounty =>
    let inputs := kw.inputs
    let is_issue_and_activate := (inputs.get "_issuer").truthy
    let s2 := BountyClient.activate_bounty s bounty kw
    if is_issue_and_activate then
      .ok (s2, [.commit "activate_bounty" bounty_id,
                slackCall w "bounty_issued_and_activated" bounty_id,
                notifyCall w "bounty_issued_and_activated" bounty_id])
    else
      .ok (s2, [.commit "activate_bounty" bounty_id,
                notifyCall w "bounty_activated" bounty_id,
                slackCall w "bounty_activated" bounty_id])

/-- Handler `bounty_fulfilled` of `master_client.py`. -/
def bounty_fulfilled (w : World) (s : Store) (bounty_id : ℕ)
    (kw : Kwargs) : HandlerResult :=
  match s.lookup bounty_id with
  | none => .error .notFound
  | some bounty =>
    let s2 := BountyClient.fulfill_bounty s bounty kw
    .ok (s2, [.commit "fulfill_bounty" bounty_id,
              notifyCall w "bounty_fulfilled" bounty_id,
              slackCall w "bounty_fulfilled" bounty_id])

/-- Handler `fullfillment_updated` of `master_client.py` (source
spelling kept). -/
def fullfillment_updated (w : World) (s : Store) (bounty_id : ℕ)
    (kw : Kwargs) : HandlerResult :=
  match s.lookup bounty_id with
  | none => .error .notFound
  | some bounty =>
    let s2 := BountyClient.update_fulfillment s bounty kw
    .ok (s2, [.commit "update_fulfillment" bounty_id,
              notifyCall w "fulfillment_updated" bounty_id,
              slackCall w "fulfillment_updated" bounty_id])

/-- Handler `fulfillment_accepted` of `master_client.py`. -/
def fulfillment_accepted (w : World) (s : Store) (bounty_id : ℕ)
    (kw : Kwargs) : HandlerResult :=
  match s.lookup bounty_id with
  | none => .error .notFound
  | some bounty =>
    let s2 := BountyClient.accept_fulfillment s bounty kw
    .ok (s2, [.commit "accept_fulfillment" bounty_id,
              notifyCall w "fulfillment_accepted" bounty_id,
              slackCall w "fulfillment_accepted" bounty_id])

/-- Handler `bounty_killed` of `master_client.py`. -/
def bounty_killed (w : World) (s : Store) (bounty_id : ℕ)
    (kw : Kwargs) : HandlerResult :=
  match s.lookup bounty_id with
  | none => .error .notFound
  | some bounty =>
    let s2 := BountyClient.kill_bounty s bounty kw
    .ok (s2, [.commit "kill_bounty" bounty_id,
              notifyCall w "bounty_killed" bounty_id,
              slackCall w "bounty_killed" bounty_id])

/-- Handler `contribution_added` of `master_client.py`: always commits
the contribution; sends the contribution messages only when
the `_issuer` input is falsy. -/
def contribution_added (w : World) (s : Store) (bounty_id : ℕ)
    (kw : Kwargs) : HandlerResult :=
  match s.lookup bounty_id with
  | none => .error .notFound
  | some bounty =>
    let inputs := kw.inputs
    let is_issue_and_activate := (inputs.get "_issuer").truthy
    let s2 := BountyClient.add_contribution s bounty kw
    if is_issue_and_activate then
      .ok (s2, [.commit "add_contribution" bounty_id])
    else
      .ok (s2, [.commit "add_contribution" bounty_id,
                notifyCall w "contribution_added" bounty_id,
                slackCall w "contribution_added" bounty_id])

/-- Handler `deadline_extended` of `master_client.py`. -/
def deadline_extended (w : World) (s : Store) (bounty_id : ℕ)
    (kw : Kwargs) : HandlerResult :=
  match s.lookup bounty_id with
  | none => .error .notFound
  | some bounty =>
    let s2 := BountyClient.extend_deadline s bounty kw
    .ok (s2, [.commit "extend_deadline" bounty_id,
              notifyCall w "deadline_extended" bounty_id,
              slackCall w "deadline_extended" bounty_id])

/-- Handler `bounty_changed` of `master_client.py`. -/
def bounty_changed (w : World) (s : Store) (bounty_id : ℕ)
    (kw : Kwargs) : HandlerResult :=
  match s.lookup bounty_id with
  | none => .error .notFound
  | some bounty =>
    let s2 := BountyClient.change_bounty s bounty kw
    .ok (s2, [.commit "change_bounty" bounty_id,
              notifyCall w "bounty_changed" bounty_id,
              slackCall w "bounty_changed" bounty_id])

/-- Handler `issuer_transferred` of `master_client.py`. -/
def issuer_transferred (w : World) (s : Store) (bounty_id : ℕ)
    (kw : Kwargs) : HandlerResult :=
  match s.lookup bounty_id with
  | none => .error .notFound
  | some bounty =>
    let s2 := BountyClient.transfer_issuer s bounty kw
    .ok (s2, [.commit "transfer_issuer" bounty_id,
              notifyCall w "issuer_transferred" bounty_id,
              slackCall w "issuer_transferred" bounty_id])

/-- Handler `payout_increased` of `master_client.py`. -/
def payout_increased (w : World) (s : Store) (bounty_id : ℕ)
    (kw : Kwargs) : HandlerResult :=
  match s.lookup bounty_id with
  | none => .error .notFound
  | some bounty =>
    let s2 := BountyClient.increase_payout s bounty kw
    .ok (s2, [.commit "increase_payout" bounty_id,
              notifyCall w "payout_increased" bounty_id,
              slackCall w "payout_increased" bounty_id])

/-- The event kinds routed to the handlers of `master_client.py`. -/
inductive EventKind where
  | issued
  | activated
  | fulfilled
  | fulfillmentUpdated
  | fulfillmentAccepted
  | killed
  | contributionAdded
  | deadlineExtended
  | changed
  | issuerTransferred
  | payoutIncreased
  deriving DecidableEq, Repr

/-- The event router: one handler per event kind, exactly the function
table of `master_client.py`. -/
def dispatch (k : EventKind) (w : World) (s : Store) (bounty_id : ℕ)
    (kw : Kwargs) : HandlerResult :=
  match k with
  | .issued => bounty_issued w s bounty_id kw
  | .activated => bounty_activated w s bounty_id kw
  | .fulfilled => bounty_fulfilled w s bounty_id kw
  | .fulfillmentUpdated => fullfillment_updated w s bounty_id kw
  | .fulfillmentAccepted => fulfillment_accepted w s bounty_id kw
  | .killed => bounty_killed w s bounty_id kw
  | .contributionAdded => contribution_added w s bounty_id kw
  | .deadlineExtended => deadline_extended w s bounty_id kw
  | .changed => bounty_changed w s bounty_id kw
  | .issuerTransferred => issuer_transferred w s bounty_id kw
  | .payoutIncreased => payout_increased w s bounty_id kw

/-- A draft test bounty, and an already-active one. -/
def draftBounty : BountyRec :=
  { bountyId := 1, stage := Stage.draft, issuer := "0xissuer",
    deadline := 100, balance := 0, fulfillmentAmount := 5,
    fulfillments := [] }

/-- An Active bounty as produced by issue-and-activate issuance. -/
def activeBounty : BountyRec :=
  { draftBounty with stage := Stage.active }


/-! ## Theorems: pricing engine -/

/-- C3: for every decimal-string raw value and non-negative decimals,
the token quantity is the exact rational `value * 10 ^ -decimals`
(exact base-10 scaling); in particular
`quantity("100500", 3) = 100.5` and `quantity("500", 3) = 0.5`. -/
theorem calculate_token_quantity_exact :
    (∀ (value : String) (decimals : ℕ),
        calculate_token_quantity value decimals =
          (parseDecimalNat value).map
            (fun n => (n : ℚ) * (10 : ℚ) ^ (-(decimals : ℤ))))
    ∧ calculate_token_quantity "100500" 3 = some (100.5 : ℚ)
    ∧ calculate_token_quantity "500" 3 = some (0.5 : ℚ) := by
  refine ⟨fun value decimals => ?_, ?_, ?_⟩
  · unfold calculate_token_quantity
    cases parseDecimalNat value with
    | none => rfl
    | some n =>
        show some (tokenQuantity n decimals) =
          some ((n : ℚ) * (10 : ℚ) ^ (-(decimals : ℤ)))
        rw [tokenQuantity, zpow_neg, zpow_natCast, div_eq_mul_inv]
  · have hp : parseDecimalNat "100500" = some 100500 := by decide
    simp only [calculate_token_quantity, hp, Option.map_some]
    norm_num [tokenQuantity]
  · have hp : parseDecimalNat "500" = some 500 := by decide
    simp only [calculate_token_quantity, hp, Option.map_some]
    norm_num [tokenQuantity]

/-- C2: the USD price is the token quantity times the USD rate, rounded
to exactly 8 fractional digits with round-half-up, all in exact
rational arithmetic; in particular
`usdPrice("123456789123456789", 9, 1) = 123456789.12345679` and
`usdPrice("100000", 2, 2) = 2000`. -/
theorem calculate_usd_price_quantizes :
    (∀ (value : String) (decimals : ℕ) (usd_rate : ℚ),
        calculate_usd_price value decimals usd_rate =
          (calculate_token_quantity value decimals).map
            (fun q => quantize8 (q * usd_rate)))
    ∧ calculate_usd_price "123456789123456789" 9 1 =
        some (123456789.12345679 : ℚ)
    ∧ calculate_usd_price "100000" 2 2 = some (2000 : ℚ) := by
  refine ⟨fun value decimals usd_rate => ?_, ?_, ?_⟩
  · unfold calculate_usd_price calculate_token_quantity
    cases parseDecimalNat value with
    | none => rfl
    | some n => rfl
  · have hp : parseDecimalNat "123456789123456789" =
        some 123456789123456789 := by decide
    simp only [calculate_usd_price, hp, Option.map_some]
    norm_num [usdPriceQ, tokenQuantity, quantize8, roundHalfUp]
  · have hp : parseDecimalNat "100000" = some 100000 := by decide
    simp only [calculate_usd_price, hp, Option.map_some]
    norm_num [usdPriceQ, tokenQuantity, quantize8, roundHalfUp]

/-- C5: decimal scaling loses nothing — for every non-negative integer
value divisible by `10 ^ d`, `quantity(v, d) * 10 ^ d` is exactly
`v`. -/
theorem tokenQuantity_roundtrip (v d : ℕ) (h : (10 : ℕ) ^ d ∣ v) :
    tokenQuantity v d * 10 ^ d = (v : ℚ) := by
  unfold tokenQuantity
  rw [div_mul_cancel₀]
  positivity

/-- C5 witness: the round-trip at `v = 100`, `d = 2`. -/
theorem tokenQuantity_roundtrip_witness :
    (10 : ℕ) ^ 2 ∣ 100 ∧ tokenQuantity 100 2 * 10 ^ 2 = (100 : ℚ) :=
  ⟨by decide, tokenQuantity_roundtrip 100 2 (by decide)⟩

/-- C4: token pricing degrades gracefully — for an unregistered symbol
the result is `(0, absent)` (no failure aborts the caller); for a
registered token it is
`(usdPrice(value, decimals, token.price_usd), token)`. -/
theorem get_token_pricing_cases (reg : Registry) (sym : String)
    (d v : ℕ) :
    (List.find? (fun t => t.symbol = sym) reg = none →
      get_token_pricing reg sym d v = (0, none))
    ∧ ∀ t : Token, List.find? (fun t => t.symbol = sym) reg = some t →
      get_token_pricing reg sym d v = (usdPriceQ v d t.price_usd, some t) := by
  constructor
  · intro hf
    unfold get_token_pricing
    rw [hf]
  · intro t hf
    unfold get_token_pricing
    rw [hf]

/-- C4 witness: the test-fixture registry — symbol `NEX` is absent and
prices to zero; symbol `ETH` is present and prices through the
registered rate. -/
theorem get_token_pricing_cases_witness :
    get_token_pricing [ethToken] "NEX" 5 100 = (0, none)
    ∧ get_token_pricing [ethToken] "ETH" 5 100 =
        (usdPriceQ 100 5 ethToken.price_usd, some ethToken) :=
  ⟨(get_token_pricing_cases [ethToken] "NEX" 5 100).1 (by decide),
   (get_token_pricing_cases [ethToken] "ETH" 5 100).2 ethToken (by decide)⟩

/-! ## Theorems: event handlers -/

/-- After issuance the created record is found under its id. -/
lemma lookup_issue_bounty (s : Store) (bounty_id : ℕ) (kw : Kwargs) :
    Store.lookup (BountyClient.issue_bounty s bounty_id kw).1 bounty_id =
      some (BountyClient.issue_bounty s bounty_id kw).2 := by
  unfold BountyClient.issue_bounty Store.lookup
  rw [List.find?_cons_of_pos]
  simp

/-- Unfolding of `bounty_issued` when no bounty with this id exists. -/
lemma bounty_issued_none (w : World) (s : Store) (bounty_id : ℕ)
    (kw : Kwargs) (hl : Store.lookup s bounty_id = none) :
    bounty_issued w s bounty_id kw =
      if (kw.inputs.get "_value").truthy then
        .ok ((BountyClient.issue_bounty s bounty_id kw).1,
             [.commit "issue_bounty" bounty_id])
      else
        .ok ((BountyClient.issue_bounty s bounty_id kw).1,
             [.commit "issue_bounty" bounty_id,
              notifyCall w "bounty_issued" bounty_id,
              slackCall w "bounty_issued" bounty_id]) := by
  unfold bounty_issued
  rw [hl]

/-- C1: `bounty_issued` is idempotent — when the bounty already exists
the handler succeeds with the store untouched and no effects, and a
second application of `bounty_issued` for the same id after any first
one succeeds with the store of the first application and no effects. -/
theorem bounty_issued_idempotent :
    (∀ (w : World) (s : Store) (bounty_id : ℕ) (kw : Kwargs)
        (b : BountyRec),
        Store.lookup s bounty_id = some b →
        bounty_issued w s bounty_id kw = .ok (s, []))
    ∧ (∀ (w w2 : World) (s : Store) (bounty_id : ℕ) (kw kw2 : Kwargs)
        (s1 : Store) (effs : List Effect),
        bounty_issued w s bounty_id kw = .ok (s1, effs) →
        bounty_issued w2 s1 bounty_id kw2 = .ok (s1, [])) := by
  have hexist : ∀ (w : World) (s : Store) (bounty_id : ℕ) (kw : Kwargs)
      (b : BountyRec),
      Store.lookup s bounty_id = some b →
      bounty_issued w s bounty_id kw = .ok (s, []) := by
    intro w s bounty_id kw b hb
    unfold bounty_issued
    rw [hb]
  refine ⟨hexist, ?_⟩
  intro w w2 s bounty_id kw kw2 s1 effs h
  cases hl : Store.lookup s bounty_id with
  | some b =>
      rw [hexist w s bounty_id kw b hl] at h
      simp only [Except.ok.injEq, Prod.mk.injEq] at h
      obtain ⟨rfl, -⟩ := h
      exact hexist w2 s bounty_id kw2 b hl
  | none =>
      rw [bounty_issued_none w s bounty_id kw hl] at h
      have hs1 : s1 = (BountyClient.issue_bounty s bounty_id kw).1 := by
        split at h <;>
          simp only [Except.ok.injEq, Prod.mk.injEq] at h <;>
          exact h.1.symm
      subst hs1
      exact hexist w2 _ bounty_id kw2 _ (lookup_issue_bounty s bounty_id kw)

/-- C1 witness: on a store already holding bounty 1 the handler is a
no-op success, and issuing twice on an empty store equals issuing
once. -/
theorem bounty_issued_idempotent_witness :
    bounty_issued goodWorld [activeBounty] 1 ⟨[], none⟩ =
      .ok ([activeBounty], [])
    ∧ bounty_issued goodWorld [⟨1, Stage.draft, "", 0, 0, 0, []⟩] 1
        ⟨[], none⟩ =
      .ok ([⟨1, Stage.draft, "", 0, 0, 0, []⟩], []) := by
  constructor
  · exact bounty_issued_idempotent.1 goodWorld [activeBounty] 1 ⟨[], none⟩
      activeBounty (by decide)
  · exact bounty_issued_idempotent.2 goodWorld goodWorld [] 1 ⟨[], none⟩
      ⟨[], none⟩ [⟨1, Stage.draft, "", 0, 0, 0, []⟩]
      [.commit "issue_bounty" 1, .notify "bounty_issued" 1,
       .slack "bounty_issued" 1]
      (by decide)

/-- C6: every event kind other than `bounty_issued` applied to an id
with no stored bounty fails with `NotFoundError` and leaves the store
unchanged. -/
theorem missing_bounty_not_found (k : EventKind) (w : World) (s : Store)
    (bounty_id : ℕ) (kw : Kwargs) (hk : k ≠ EventKind.issued)
    (hl : Store.lookup s bounty_id = none) :
    dispatch k w s bounty_id kw = .error .notFound
    ∧ storeAfter s (dispatch k w s bounty_id kw) = s := by
  have hd : dispatch k w s bounty_id kw = .error .notFound := by
    cases k
    case issued => exact absurd rfl hk
    all_goals
      simp only [dispatch, bounty_activated, bounty_fulfilled,
        fullfillment_updated, fulfillment_accepted, bounty_killed,
        contribution_added, deadline_extended, bounty_changed,
        issuer_transferred, payout_increased]
    all_goals rw [hl]
  exact ⟨hd, by rw [hd]; rfl⟩

/-- C6 witness: `bounty_activated` on the empty store fails with
NotFound and the store stays empty. -/
theorem missing_bounty_not_found_witness :
    dispatch .activated goodWorld [] 1 ⟨[], none⟩ = .error .notFound
    ∧ storeAfter [] (dispatch .activated goodWorld [] 1 ⟨[], none⟩) = [] :=
  missing_bounty_not_found .activated goodWorld [] 1 ⟨[], none⟩
    (by decide) (by decide)

/-- Every successful handler run either emits no effects at all or
emits the `bounty_client` commit as its first effect. -/
lemma dispatch_effects_shape (k : EventKind) (w : World) (s : Store)
    (bounty_id : ℕ) (kw : Kwargs) (s2 : Store) (effs : List Effect)
    (h : dispatch k w s bounty_id kw = .ok (s2, effs)) :
    effs = [] ∨ ∃ op rest, effs = Effect.commit op bounty_id :: rest := by
  cases k <;>
    cases hl : Store.lookup s bounty_id <;>
      simp only [dispatch, bounty_issued, bounty_activated,
        bounty_fulfilled, fullfillment_updated, fulfillment_accepted,
        bounty_killed, contribution_added, deadline_extended,
        bounty_changed, issuer_transferred, payout_increased, hl] at h <;>
      first
        | exact Except.noConfusion h
        | (split at h <;>
           (simp only [Except.ok.injEq, Prod.mk.injEq] at h
            first
              | exact Or.inl h.2.symm
              | exact Or.inr ⟨_, _, h.2.symm⟩))
        | (simp only [Except.ok.injEq, Prod.mk.injEq] at h
           first
             | exact Or.inl h.2.symm
             | exact Or.inr ⟨_, _, h.2.symm⟩)

/-- C7: in every handler the state commit happens before any external
notification — whenever the effect sequence of a successful run contains a
notification attempt, some `bounty_client` commit occurs strictly
earlier in the sequence. -/
theorem commit_precedes_notifications (k : EventKind) (w : World)
    (s : Store) (bounty_id : ℕ) (kw : Kwargs) (s2 : Store)
    (effs pre post : List Effect) (e : Effect)
    (h : dispatch k w s bounty_id kw = .ok (s2, effs))
    (hsplit : effs = pre ++ e :: post)
    (he : e.isNotification = true) :
    ∃ op b2, Effect.commit op b2 ∈ pre := by
  rcases dispatch_effects_shape k w s bounty_id kw s2 effs h with
    hnil | ⟨op, rest, hshape⟩
  · rw [hnil] at hsplit
    exact absurd hsplit.symm (List.append_ne_nil_of_right_ne_nil pre
      (List.cons_ne_nil e post))
  · rw [hshape] at hsplit
    cases pre with
    | nil =>
        simp only [List.nil_append, List.cons.injEq] at hsplit
        rw [← hsplit.1] at he
        simp [Effect.isNotification] at he
    | cons p pre2 =>
        simp only [List.cons_append, List.cons.injEq] at hsplit
        exact ⟨op, bounty_id, by rw [hsplit.1]; exact List.mem_cons_self p pre2⟩

/-- C7 witness: killing bounty 1 commits first, and the notification at
position 1 of the effect sequence is preceded by that commit. -/
theorem commit_precedes_notifications_witness :
    ∃ op b2, Effect.commit op b2 ∈ [Effect.commit "kill_bounty" 1] :=
  commit_precedes_notifications .killed goodWorld [activeBounty] 1
    ⟨[], none⟩ [{ activeBounty with stage := Stage.dead }]
    [Effect.commit "kill_bounty" 1, Effect.notify "bounty_killed" 1,
     Effect.slack "bounty_killed" 1]
    [Effect.commit "kill_bounty" 1] [Effect.slack "bounty_killed" 1]
    (Effect.notify "bounty_killed" 1)
    (by decide) (by decide) (by decide)

/-- C8: notification and slack delivery failures are isolated — for
every handler and input, whether the run succeeds and the store it
commits are the same in every delivery environment as in the
all-deliveries-succeed environment; only the emitted effect payloads
differ. -/
theorem notification_failure_isolated (k : EventKind) (w : World)
    (s : Store) (bounty_id : ℕ) (kw : Kwargs) :
    resultOk (dispatch k w s bounty_id kw) =
      resultOk (dispatch k goodWorld s bounty_id kw)
    ∧ storeAfter s (dispatch k w s bounty_id kw) =
      storeAfter s (dispatch k goodWorld s bounty_id kw) := by
  cases k <;>
    cases hl : Store.lookup s bounty_id <;>
      simp only [dispatch, bounty_issued, bounty_activated,
        bounty_fulfilled, fullfillment_updated, fulfillment_accepted,
        bounty_killed, contribution_added, deadline_extended,
        bounty_changed, issuer_transferred, payout_increased, hl] <;>
      first
        | exact ⟨trivial, trivial⟩
        | exact ⟨rfl, rfl⟩
        | (split <;> exact ⟨rfl, rfl⟩)

/-- C9 counterexample: for a bounty already Active (as created by
issue-and-activate issuance), a delivered `bounty_activated` event
carrying the `_issuer` marker is not a no-op — the handler re-invokes
the activation commit and emits the combined issued-and-activated
slack and notification side effects, so its effect sequence is not
empty. -/
theorem bounty_activated_replay_counterexample :
    dispatch .activated goodWorld [activeBounty] 1
        ⟨[("_issuer", PyVal.pyStr "0xissuer")], none⟩ =
      .ok ([activeBounty],
        [Effect.commit "activate_bounty" 1,
         Effect.slack "bounty_issued_and_activated" 1,
         Effect.notify "bounty_issued_and_activated" 1])
    ∧ ([Effect.commit "activate_bounty" 1,
        Effect.slack "bounty_issued_and_activated" 1,
        Effect.notify "bounty_issued_and_activated" 1] ≠
          ([] : List Effect)) :=
  ⟨by decide, by decide⟩

/-- C9 amended: when a `bounty_activated` event arrives for an existing
bounty and its payload carries the issue-and-activate marker
(a truthy `_issuer` input), the handler is tolerated as a success
that re-invokes the activation commit (idempotent on an already-Active
record) and emits the combined issued-and-activated messages — but it
never emits the plain activation notification or slack message. -/
theorem bounty_activated_replay_amended (w : World) (s : Store)
    (bounty_id : ℕ) (kw : Kwargs) (b : BountyRec)
    (hl : Store.lookup s bounty_id = some b)
    (hflag : (kw.inputs.get "_issuer").truthy = true) :
    bounty_activated w s bounty_id kw =
      .ok (BountyClient.activate_bounty s b kw,
        [Effect.commit "activate_bounty" bounty_id,
         slackCall w "bounty_issued_and_activated" bounty_id,
         notifyCall w "bounty_issued_and_activated" bounty_id])
    ∧ Effect.notify "bounty_activated" bounty_id ∉
        [Effect.commit "activate_bounty" bounty_id,
         slackCall w "bounty_issued_and_activated" bounty_id,
         notifyCall w "bounty_issued_and_activated" bounty_id]
    ∧ Effect.slack "bounty_activated" bounty_id ∉
        [Effect.commit "activate_bounty" bounty_id,
         slackCall w "bounty_issued_and_activated" bounty_id,
         notifyCall w "bounty_issued_and_activated" bounty_id] := by
  refine ⟨?_, ?_, ?_⟩
  · simp [bounty_activated, hl, hflag]
  · cases hs : w.slackFails "bounty_issued_and_activated" <;>
      cases hn : w.notifyFails "bounty_issued_and_activated" <;>
      simp [slackCall, notifyCall, hs, hn]
  · cases hs : w.slackFails "bounty_issued_and_activated" <;>
      cases hn : w.notifyFails "bounty_issued_and_activated" <;>
      simp [slackCall, notifyCall, hs, hn]

/-- C9 amended witness: the concrete replay of the counterexample,
through the amended theorem. -/
theorem bounty_activated_replay_amended_witness :
    bounty_activated goodWorld [activeBounty] 1
        ⟨[("_issuer", PyVal.pyStr "0xissuer")], none⟩ =
      .ok (BountyClient.activate_bounty [activeBounty] activeBounty
            ⟨[("_issuer", PyVal.pyStr "0xissuer")], none⟩,
        [Effect.commit "activate_bounty" 1,
         slackCall goodWorld "bounty_issued_and_activated" 1,
         notifyCall goodWorld "bounty_issued_and_activated" 1]) :=
  (bounty_activated_replay_amended goodWorld [activeBounty] 1
      ⟨[("_issuer", PyVal.pyStr "0xissuer")], none⟩ activeBounty
      (by decide) (by decide)).1

/-- C10: `contribution_added` commits the contribution mutation
unconditionally, and emits the contribution notification and slack
message exactly when the `_issuer` input is absent or falsy. -/
theorem contribution_added_notification_gate (w : World) (s : Store)
    (bounty_id : ℕ) (kw : Kwargs) (b : BountyRec)
    (hl : Store.lookup s bounty_id = some b) :
    contribution_added w s bounty_id kw =
      .ok (BountyClient.add_contribution s b kw,
        if (kw.inputs.get "_issuer").truthy then
          [Effect.commit "add_contribution" bounty_id]
        else
          [Effect.commit "add_contribution" bounty_id,
           notifyCall w "contribution_added" bounty_id,
           slackCall w "contribution_added" bounty_id]) := by
  cases hc : (kw.inputs.get "_issuer").truthy <;>
    simp [contribution_added, hl, hc]

/-- C10 witness: with a truthy `_issuer` the balance mutation still
happens while no notification is emitted; with no `_issuer` the same
mutation happens and both contribution messages follow the commit. -/
theorem contribution_added_notification_gate_witness :
    contribution_added goodWorld [activeBounty] 1
        ⟨[("_issuer", PyVal.pyStr "0xabc"), ("amount", PyVal.pyInt 7)],
         none⟩ =
      .ok ([{ activeBounty with balance := 7 }],
           [Effect.commit "add_contribution" 1])
    ∧ contribution_added goodWorld [activeBounty] 1
        ⟨[("amount", PyVal.pyInt 7)], none⟩ =
      .ok ([{ activeBounty with balance := 7 }],
           [Effect.commit "add_contribution" 1,
            Effect.notify "contribution_added" 1,
            Effect.slack "contribution_added" 1]) := by
  constructor
  · have h := contribution_added_notification_gate goodWorld [activeBounty]
      1 ⟨[("_issuer", PyVal.pyStr "0xabc"), ("amount", PyVal.pyInt 7)],
         none⟩ activeBounty (by decide)
    rw [h]
    decide
  · have h := contribution_added_notification_gate goodWorld [activeBounty]
      1 ⟨[("amount", PyVal.pyInt 7)], none⟩ activeBounty (by decide)
    rw [h]
    decide

end BountiesAPI
